import Mathlib

/-!
Shallow embedding of `src/resolvers/Query/organizationsMemberConnection.ts`
from the talawa-api repository.

The module has two parts:
 - `getInputArg`, a pure function turning a GraphQL `UserWhereInput` object
   into a MongoDB query object (modelled as an association list from keys to
   field predicates, with JavaScript object-spread update semantics), and
 - the resolver `organizationsMemberConnection`, which validates pagination
   arguments, calls `User.paginate` (modelled as an abstract store function),
   reshapes the returned documents and assembles the connection result.

JavaScript value conventions reproduced here:
 - `InputMaybe<T>` scalar fields are `Option String`; the source guards each
   block with a truthiness test (`if (where.firstName)`), so `none` and the
   empty string both skip the block.
 - List-valued fields are `Option (List String)`; a present empty array is
   truthy in JavaScript, so `some []` enters the block.
 - `args.first` and `args.skip` distinguish `undefined`, `null` and a number,
   because the source compares against both `null` and `undefined`; they are
   modelled by `JSVal Int` (`0` is falsy).
-/

/-- A single MongoDB field predicate as generated by `getInputArg`:
`eqV` is a bare value (implicit equality), `neV` is `{$ne: v}`, `inL` is
`{$in: l}`, `ninL` is `{$nin: l}`, `regexI` is `{$regex: p, $options: "i"}`,
`regexRaw` is a bare JavaScript `RegExp(p)` with no flags, and `idEq` is the
subdocument form `{_id: v}` used for `joinedOrganizations` and `adminFor`. -/
inductive FieldPred where
  | eqV (v : String)
  | neV (v : String)
  | inL (l : List String)
  | ninL (l : List String)
  | regexI (pat : String)
  | regexRaw (pat : String)
  | idEq (v : String)
deriving Repr, DecidableEq

/-- A MongoDB query object: an association list from field keys to
predicates, in JavaScript object insertion order. -/
abbrev QueryObj := List (String × FieldPred)

/-- JavaScript object-spread update `{...o, k: v}`: if `k` is already a key
of `o` its binding is replaced in place, otherwise `(k, v)` is appended. -/
def setKey (o : QueryObj) (k : String) (v : FieldPred) : QueryObj :=
  if o.any (fun p => p.1 = k) then
    o.map (fun p => if p.1 = k then (k, v) else p)
  else
    o ++ [(k, v)]

/-- One scalar-field block of `getInputArg`: `if (where.f) { inputArg =
{...inputArg, key: mk(where.f)} }`. A missing field and the empty string are
both falsy in JavaScript, so both leave the object unchanged. -/
def strField (key : String) (mk : String → FieldPred) (v : Option String)
    (o : QueryObj) : QueryObj :=
  match v with
  | some s => if s = "" then o else setKey o key (mk s)
  | none => o

/-- One list-field block of `getInputArg`: a present array (even `[]`) is
truthy in JavaScript, so any `some l` sets the key. -/
def listField (key : String) (mk : List String → FieldPred)
    (v : Option (List String)) (o : QueryObj) : QueryObj :=
  match v with
  | some l => setKey o key (mk l)
  | none => o

/-- The GraphQL `UserWhereInput` fields read by `getInputArg`, in source
order. `null` and `undefined` are both falsy in every guard of the source,
so both are collapsed to `none`. -/
structure UserWhereInput where
  id : Option String := none
  id_not : Option String := none
  id_in : Option (List String) := none
  id_not_in : Option (List String) := none
  firstName : Option String := none
  firstName_not : Option String := none
  firstName_in : Option (List String) := none
  firstName_not_in : Option (List String) := none
  firstName_contains : Option String := none
  firstName_starts_with : Option String := none
  lastName : Option String := none
  lastName_not : Option String := none
  lastName_in : Option (List String) := none
  lastName_not_in : Option (List String) := none
  lastName_contains : Option String := none
  lastName_starts_with : Option String := none
  email : Option String := none
  email_not : Option String := none
  email_in : Option (List String) := none
  email_not_in : Option (List String) := none
  email_contains : Option String := none
  email_starts_with : Option String := none
  appLanguageCode : Option String := none
  appLanguageCode_not : Option String := none
  appLanguageCode_in : Option (List String) := none
  appLanguageCode_not_in : Option (List String) := none
  appLanguageCode_contains : Option String := none
  appLanguageCode_starts_with : Option String := none
  admin_for : Option String := none
  event_title_contains : Option String := none
deriving Repr, DecidableEq

/-- The filter builder `getInputArg` of the source, block for block and in
source order. Each block spreads the accumulated object and sets one key, so
a later block on the same key overwrites an earlier one. `starts_with`
blocks build `new RegExp("^" + term)` (no flags); `contains` blocks build
`{$regex: term, $options: "i"}`. -/
def getInputArg (w? : Option UserWhereInput) : QueryObj :=
  match w? with
  | none => []
  | some w =>
    let o : QueryObj := []
    let o := strField "_id" FieldPred.eqV w.id o
    let o := strField "_id" FieldPred.neV w.id_not o
    let o := listField "_id" FieldPred.inL w.id_in o
    let o := listField "_id" FieldPred.ninL w.id_not_in o
    let o := strField "firstName" FieldPred.eqV w.firstName o
    let o := strField "firstName" FieldPred.neV w.firstName_not o
    let o := listField "firstName" FieldPred.inL w.firstName_in o
    let o := listField "firstName" FieldPred.ninL w.firstName_not_in o
    let o := strField "firstName" FieldPred.regexI w.firstName_contains o
    let o := strField "firstName" (fun s => FieldPred.regexRaw ("^" ++ s))
      w.firstName_starts_with o
    let o := strField "lastName" FieldPred.eqV w.lastName o
    let o := strField "lastName" FieldPred.neV w.lastName_not o
    let o := listField "lastName" FieldPred.inL w.lastName_in o
    let o := listField "lastName" FieldPred.ninL w.lastName_not_in o
    let o := strField "lastName" FieldPred.regexI w.lastName_contains o
    let o := strField "lastName" (fun s => FieldPred.regexRaw ("^" ++ s))
      w.lastName_starts_with o
    let o := strField "email" FieldPred.eqV w.email o
    let o := strField "email" FieldPred.neV w.email_not o
    let o := listField "email" FieldPred.inL w.email_in o
    let o := listField "email" FieldPred.ninL w.email_not_in o
    let o := strField "email" FieldPred.regexI w.email_contains o
    let o := strField "email" (fun s => FieldPred.regexRaw ("^" ++ s))
      w.email_starts_with o
    let o := strField "appLanguageCode" FieldPred.eqV w.appLanguageCode o
    let o := strField "appLanguageCode" FieldPred.neV w.appLanguageCode_not o
    let o := listField "appLanguageCode" FieldPred.inL w.appLanguageCode_in o
    let o := listField "appLanguageCode" FieldPred.ninL
      w.appLanguageCode_not_in o
    let o := strField "appLanguageCode" FieldPred.regexI
      w.appLanguageCode_contains o
    let o := strField "appLanguageCode" (fun s => FieldPred.regexRaw ("^" ++ s))
      w.appLanguageCode_starts_with o
    let o := strField "adminFor" FieldPred.idEq w.admin_for o
    let o := strField "registeredEvents.title" FieldPred.regexI
      w.event_title_contains o
    o

/-- The query object the resolver passes to `User.paginate`:
`{joinedOrganizations: {_id: orgId}, ...inputArg}` — the base membership
predicate first, then every binding of `getInputArg` spread over it. -/
def buildQuery (orgId : String) (w? : Option UserWhereInput) : QueryObj :=
  (getInputArg w?).foldl (fun acc kv => setKey acc kv.1 kv.2)
    [("joinedOrganizations", FieldPred.idEq orgId)]

/-- Whether `pat` occurs as a contiguous sublist of `s`. -/
def listContainsSub (pat : List Char) : List Char → Bool
  | [] => pat = []
  | c :: rest => pat.isPrefixOf (c :: rest) || listContainsSub pat rest

/-- Matching semantics of the two regular-expression shapes this module
generates, for terms without regex metacharacters. A bare
`RegExp("^" + term)` (no flags) matches a value iff `term` is literally a
prefix of it, case-sensitively; any other literal pattern matches iff it
occurs somewhere in the value. -/
def rawRegexMatch (pat s : String) : Bool :=
  match pat.toList with
  | '^' :: rest => rest.isPrefixOf s.toList
  | _ => listContainsSub pat.toList s.toList

/-- MongoDB evaluation of one field predicate against a scalar field value,
for metacharacter-free regex terms. `$regex` with `$options: "i"` is a
case-insensitive substring test; a bare `RegExp` is matched by
`rawRegexMatch` (case-sensitive, honouring a leading anchor). -/
def evalFieldPred : FieldPred → String → Bool
  | FieldPred.eqV v, s => s = v
  | FieldPred.neV v, s => s ≠ v
  | FieldPred.inL l, s => l.contains s
  | FieldPred.ninL l, s => !(l.contains s)
  | FieldPred.regexI pat, s =>
      listContainsSub (pat.toList.map Char.toLower) (s.toList.map Char.toLower)
  | FieldPred.regexRaw pat, s => rawRegexMatch pat s
  | FieldPred.idEq v, s => s = v

/-- A JavaScript `InputMaybe<number>` argument: `undefined` (absent), an
explicit `null`, or a number. The resolver compares `args.skip` against both
`null` and `undefined`, so the distinction matters. -/
inductive JSVal (α : Type) where
  | undefined
  | null
  | val (v : α)
deriving Repr, DecidableEq

/-- JavaScript truthiness of a numeric argument: `undefined`, `null` and `0`
are falsy. -/
def truthyJSInt : JSVal Int → Bool
  | JSVal.val n => n ≠ 0
  | _ => false

/-- The arguments of the `organizationsMemberConnection` query. `orderBy` is
the opaque sort specification forwarded to the external sort resolver. -/
structure Args where
  orgId : String
  whereInput : Option UserWhereInput
  orderBy : Option String
  first : JSVal Int
  skip : JSVal Int
deriving Repr, DecidableEq

/-- Modelled from the spec: `getSort` lives in
`src/resolvers/Query/helperFunctions/getSort.ts`, which is not part of the
sources given; per the spec it maps the order-by specification to an opaque
ordering description that is passed through unchanged, so it is modelled as
the identity on the opaque specification. -/
def getSort (orderBy : Option String) : Option String :=
  orderBy

/-- The options object handed to `User.paginate`. The unpaged branch of the
source sets only `sort` and `pagination: false`; absent fields keep their
defaults. -/
structure PaginateOptions where
  lean : Bool := false
  sort : Option String := none
  pagination : Bool
  page : JSVal Int := JSVal.undefined
  limit : JSVal Int := JSVal.undefined
  populate : List String := []
  select : List String := []
deriving Repr, DecidableEq

/-- The raw user document returned by the store; `password` and `image` are
nullable. The model keeps a representative set of fields — the source
spreads whatever fields the document has and then overrides `image` and
`password`. -/
structure RawUser where
  userId : String
  firstName : String
  password : Option String
  image : Option String
deriving Repr, DecidableEq

/-- A member record as returned to the client, after the resolver's map:
every raw field copied, then `image` rewritten and `password` nulled. -/
structure PublicUser where
  userId : String
  firstName : String
  password : Option String
  image : Option String
deriving Repr, DecidableEq

/-- The mongoose-paginate result consumed by the resolver. -/
structure PaginateResult where
  docs : List RawUser
  hasNextPage : Bool
  hasPrevPage : Bool
  totalPages : Option Int
  nextPage : Option Int
  prevPage : Option Int
  page : Option Int
  totalDocs : Int
deriving Repr, DecidableEq

/-- The store capability: `User.paginate` as an abstract function from the
query object and options to a result. -/
abbrev StoreFn := QueryObj → PaginateOptions → PaginateResult

/-- The `pageInfo` part of the response. -/
structure PageInfo where
  hasNextPage : Bool
  hasPreviousPage : Bool
  totalPages : Option Int
  nextPageNo : Option Int
  prevPageNo : Option Int
  currPageNo : Option Int
deriving Repr, DecidableEq

/-- The assembled connection response: page info, edges, aggregate count. -/
structure ConnectionResult where
  pageInfo : PageInfo
  edges : List PublicUser
  aggregate : Int
deriving Repr, DecidableEq

/-- A thrown JavaScript value: the source throws both a raw string
(`throw "Missing Skip parameter..."`) and an `Error` object. -/
inductive Thrown where
  | str (msg : String)
  | err (msg : String)
deriving Repr, DecidableEq

/-- Outcome of one resolver invocation: how many times the store was called
and either the thrown value or the assembled result. -/
structure RunOutcome where
  storeCalls : Nat
  result : Except Thrown ConnectionResult
deriving Repr

/-- One returned member record: spread the raw document, rewrite `image` to
`apiRootUrl + image` when truthy (a non-null, non-empty string), else
`null`, and null out `password`. The paged branch spreads `user` and the
unpaged branch spreads `user._doc`; both copy the same document fields, so
one function models both. -/
def reshapeUser (apiRootUrl : String) (u : RawUser) : PublicUser :=
  { userId := u.userId
    firstName := u.firstName
    image :=
      match u.image with
      | some img => if img = "" then none else some (apiRootUrl ++ img)
      | none => none
    password := none }

/-- The paged `paginateOptions` of the source: `lean: true`, the resolved
sort, `pagination: true`, `page: args.skip`, `limit: args.first`. -/
def pagedOptions (args : Args) : PaginateOptions :=
  { lean := true
    sort := getSort args.orderBy
    pagination := true
    page := args.skip
    limit := args.first }

/-- The unpaged `paginateOptions` of the source: the resolved sort and
`pagination: false`. -/
def unpagedOptions (args : Args) : PaginateOptions :=
  { sort := getSort args.orderBy
    pagination := false }

/-- The options object actually passed to `User.paginate`:
`{...paginateOptions, populate: ["registeredEvents"], select: ["-password"]}`. -/
def storeOptions (popts : PaginateOptions) : PaginateOptions :=
  { popts with
    populate := ["registeredEvents"]
    select := ["-password"] }

/-- Everything from the `User.paginate` call onward: call the store, then —
only when `pagination` is on — throw `Error("Skip parameter is missing")` if
`args.skip` is `undefined`; otherwise map the documents (identically in the
paged and unpaged branches) and assemble the response. -/
def runAfterValidation (store : StoreFn) (args : Args) (apiRootUrl : String)
    (popts : PaginateOptions) : RunOutcome :=
  let usersModel := store (buildQuery args.orgId args.whereInput)
    (storeOptions popts)
  if popts.pagination ∧ args.skip = JSVal.undefined then
    { storeCalls := 1
      result := Except.error (Thrown.err "Skip parameter is missing") }
  else
    { storeCalls := 1
      result := Except.ok
        { pageInfo :=
            { hasNextPage := usersModel.hasNextPage
              hasPreviousPage := usersModel.hasPrevPage
              totalPages := usersModel.totalPages
              nextPageNo := usersModel.nextPage
              prevPageNo := usersModel.prevPage
              currPageNo := usersModel.page }
          edges := usersModel.docs.map (reshapeUser apiRootUrl)
          aggregate := usersModel.totalDocs } }

/-- The resolver `organizationsMemberConnection`: when `args.first` is
truthy, first reject an explicit `args.skip === null` with the raw-string
throw (before any store access) and otherwise run in paged mode; when
`args.first` is falsy (absent, `null` or `0`), run in unpaged mode. -/
def organizationsMemberConnection (store : StoreFn) (args : Args)
    (apiRootUrl : String) : RunOutcome :=
  if truthyJSInt args.first then
    if args.skip = JSVal.null then
      { storeCalls := 0
        result := Except.error (Thrown.str
          "Missing Skip parameter. Set it to either 0 or some other value") }
    else
      runAfterValidation store args apiRootUrl (pagedOptions args)
  else
    runAfterValidation store args apiRootUrl (unpagedOptions args)

/-- A sample raw document with a secret password and a relative image path. -/
def sampleRawUser : RawUser :=
  { userId := "u1"
    firstName := "Jo"
    password := some "secret"
    image := some "/u1.png" }

/-- A sample store returning one document regardless of the query. -/
def sampleStore : StoreFn := fun _ _ =>
  { docs := [sampleRawUser]
    hasNextPage := false
    hasPrevPage := false
    totalPages := some 1
    nextPage := none
    prevPage := none
    page := some 1
    totalDocs := 1 }

/-- Arguments with a truthy `first` and `skip` absent (`undefined`). -/
def argsFirstNoSkip : Args :=
  { orgId := "org1"
    whereInput := none
    orderBy := none
    first := JSVal.val 10
    skip := JSVal.undefined }

/-- Arguments with no `first`: the unpaged mode. -/
def argsUnpaged : Args :=
  { orgId := "org1"
    whereInput := none
    orderBy := none
    first := JSVal.undefined
    skip := JSVal.undefined }

/-- Arguments with `first = 0`, which is falsy in JavaScript. -/
def argsFirstZero : Args :=
  { orgId := "org1"
    whereInput := none
    orderBy := none
    first := JSVal.val 0
    skip := JSVal.undefined }

/-- The connection result `sampleStore` yields in unpaged mode with api root
url `https://api.example.com`. -/
def sampleResult : ConnectionResult :=
  { pageInfo :=
      { hasNextPage := false
        hasPreviousPage := false
        totalPages := some 1
        nextPageNo := none
        prevPageNo := none
        currPageNo := some 1 }
    edges := [reshapeUser "https://api.example.com" sampleRawUser]
    aggregate := 1 }

/-- A raw document whose image is the empty string: non-null, but falsy in
JavaScript. -/
def emptyImageUser : RawUser :=
  { userId := "u2"
    firstName := "Al"
    password := some "pw"
    image := some "" }

/-- A store returning the empty-image document. -/
def emptyImageStore : StoreFn := fun _ _ =>
  { docs := [emptyImageUser]
    hasNextPage := false
    hasPrevPage := false
    totalPages := some 1
    nextPage := none
    prevPage := none
    page := some 1
    totalDocs := 1 }

lemma evalFieldPred_regexRaw_anchor (t s : String) :
    evalFieldPred (FieldPred.regexRaw ("^" ++ t)) s
      = t.toList.isPrefixOf s.toList := by
  simp only [evalFieldPred, rawRegexMatch]
  have h : ("^" ++ t).toList = '^' :: t.toList := by
    simp [String.toList, String.data_append]
  rw [h]
  rfl

lemma runAfterValidation_ok (store : StoreFn) (args : Args)
    (apiRootUrl : String) (popts : PaginateOptions) (r : ConnectionResult)
    (h : (runAfterValidation store args apiRootUrl popts).result
      = Except.ok r) :
    r.edges = ((store (buildQuery args.orgId args.whereInput)
      (storeOptions popts)).docs).map (reshapeUser apiRootUrl) := by
  unfold runAfterValidation at h
  split at h
  · simp at h
  · simp only [Except.ok.injEq] at h
    rw [← h]

lemma run_ok_edges (store : StoreFn) (args : Args) (apiRootUrl : String)
    (r : ConnectionResult)
    (h : (organizationsMemberConnection store args apiRootUrl).result
      = Except.ok r) :
    r.edges = ((store (buildQuery args.orgId args.whereInput)
      (storeOptions (if truthyJSInt args.first then pagedOptions args
        else unpagedOptions args))).docs).map (reshapeUser apiRootUrl) := by
  unfold organizationsMemberConnection at h
  by_cases hf : truthyJSInt args.first
  · rw [if_pos hf] at h ⊢
    by_cases hs : args.skip = JSVal.null
    · rw [if_pos hs] at h
      simp at h
    · rw [if_neg hs] at h
      exact runAfterValidation_ok store args apiRootUrl (pagedOptions args) r h
  · rw [if_neg hf] at h ⊢
    exact runAfterValidation_ok store args apiRootUrl (unpagedOptions args) r h

/-- Claim C1 is false: with both `firstName_not = "Jo"` and
`firstName_contains = "jo"` set, the built filter binds `firstName` to the
contains-regex alone — the not-equals predicate is overwritten, not
AND-combined — and the record value `"Jo"`, which violates the
`firstName_not` operator, still matches the built predicate. -/
theorem C1_counterexample :
    getInputArg
      (some { firstName_not := some "Jo", firstName_contains := some "jo" })
      = [("firstName", FieldPred.regexI "jo")] ∧
    evalFieldPred (FieldPred.regexI "jo") "Jo" = true ∧
    evalFieldPred (FieldPred.neV "Jo") "Jo" = false := by
  refine ⟨by decide, by decide, by decide⟩

/-- Claim C1 amended: multiple operators on the same field are not
AND-combined; each block overwrites the field's single binding, so only the
operator checked last in the source's fixed order applies. In particular,
for any non-empty `a` and `b`, a filter with both `firstName_not = a` and
`firstName_contains = b` builds the contains-regex alone. -/
theorem C1_last_operator_wins (a b : String) (ha : a ≠ "") (hb : b ≠ "") :
    getInputArg
      (some { firstName_not := some a, firstName_contains := some b })
      = [("firstName", FieldPred.regexI b)] := by
  simp [getInputArg, strField, listField, setKey, ha, hb]

/-- Witness for C1: the amended theorem at `a = "Jo"`, `b = "jo"`. -/
theorem C1_last_operator_wins_witness :
    getInputArg
      (some { firstName_not := some "Jo", firstName_contains := some "jo" })
      = [("firstName", FieldPred.regexI "jo")] :=
  C1_last_operator_wins "Jo" "jo" (by decide) (by decide)

/-- Claim C2 is false on case-insensitivity: the source builds
`new RegExp("^" + term)` with no `"i"` flag, so the prefix match is
case-sensitive. With term `"John"`, the value `"johnson"` — whose prefix
equals the term ignoring case — does not match. -/
theorem C2_counterexample :
    getInputArg (some { firstName_starts_with := some "John" })
      = [("firstName", FieldPred.regexRaw "^John")] ∧
    evalFieldPred (FieldPred.regexRaw "^John") "johnson" = false := by
  refine ⟨by decide, by decide⟩

/-- Claim C2 amended: for every non-empty term `t` on any of the four
supported `starts_with` fields, the built predicate is the anchored regex
`"^" ++ t` with no flags, and a value matches it exactly when `t` is
literally (case-sensitively) a prefix of the value; in particular a value
containing but not starting with the term never matches. -/
theorem C2_anchored_case_sensitive (t s : String) (ht : t ≠ "") :
    (getInputArg (some { firstName_starts_with := some t })
        = [("firstName", FieldPred.regexRaw ("^" ++ t))] ∧
      getInputArg (some { lastName_starts_with := some t })
        = [("lastName", FieldPred.regexRaw ("^" ++ t))] ∧
      getInputArg (some { email_starts_with := some t })
        = [("email", FieldPred.regexRaw ("^" ++ t))] ∧
      getInputArg (some { appLanguageCode_starts_with := some t })
        = [("appLanguageCode", FieldPred.regexRaw ("^" ++ t))]) ∧
    (evalFieldPred (FieldPred.regexRaw ("^" ++ t)) s = true
      ↔ t.toList.isPrefixOf s.toList = true) := by
  constructor
  · refine ⟨?_, ?_, ?_, ?_⟩ <;>
      simp [getInputArg, strField, listField, setKey, ht]
  · rw [evalFieldPred_regexRaw_anchor]

/-- Witness for C2: the amended theorem at term `"John"` and value
`"AJohnson"`, which contains but does not start with the term. -/
theorem C2_anchored_witness :
    (getInputArg (some { firstName_starts_with := some "John" })
        = [("firstName", FieldPred.regexRaw ("^" ++ "John"))] ∧
      getInputArg (some { lastName_starts_with := some "John" })
        = [("lastName", FieldPred.regexRaw ("^" ++ "John"))] ∧
      getInputArg (some { email_starts_with := some "John" })
        = [("email", FieldPred.regexRaw ("^" ++ "John"))] ∧
      getInputArg (some { appLanguageCode_starts_with := some "John" })
        = [("appLanguageCode", FieldPred.regexRaw ("^" ++ "John"))]) ∧
    (evalFieldPred (FieldPred.regexRaw ("^" ++ "John")) "AJohnson" = true
      ↔ "John".toList.isPrefixOf "AJohnson".toList = true) :=
  C2_anchored_case_sensitive "John" "AJohnson" (by decide)

/-- Claim C3 names a real code bug: with a truthy `first` and `skip` absent
(`undefined`), the pre-store guard `args.skip === null` does not fire, the
store is invoked, and only afterwards does the resolver throw
`Error("Skip parameter is missing")` — the validation was meant to abort
before any store access. -/
theorem C3_error_raised_after_store_access :
    (organizationsMemberConnection sampleStore argsFirstNoSkip
      "https://api.example.com").storeCalls = 1 ∧
    (organizationsMemberConnection sampleStore argsFirstNoSkip
      "https://api.example.com").result
      = Except.error (Thrown.err "Skip parameter is missing") := by
  exact ⟨rfl, rfl⟩

/-- Claim C4 is false for the empty string: every `eq` block is guarded by a
JavaScript truthiness test, so `firstName = ""` adds no predicate at all. -/
theorem C4_counterexample :
    getInputArg (some { firstName := some "" }) = [] := by
  decide

/-- Claim C4 amended: for every non-empty value `v`, a filter whose only
operator is the `eq` operator of one recognized scalar field builds exactly
the equals-predicate on that field with comparison value `v`; `eq` with the
empty string is silently dropped by the truthiness guard. -/
theorem C4_eq_nonempty (v : String) (hv : v ≠ "") :
    getInputArg (some { id := some v }) = [("_id", FieldPred.eqV v)] ∧
    getInputArg (some { firstName := some v })
      = [("firstName", FieldPred.eqV v)] ∧
    getInputArg (some { lastName := some v })
      = [("lastName", FieldPred.eqV v)] ∧
    getInputArg (some { email := some v })
      = [("email", FieldPred.eqV v)] ∧
    getInputArg (some { appLanguageCode := some v })
      = [("appLanguageCode", FieldPred.eqV v)] := by
  refine ⟨?_, ?_, ?_, ?_, ?_⟩ <;>
    simp [getInputArg, strField, listField, setKey, hv]

/-- Witness for C4: the amended theorem at `v = "Jo"`. -/
theorem C4_eq_nonempty_witness :
    getInputArg (some { id := some "Jo" }) = [("_id", FieldPred.eqV "Jo")] ∧
    getInputArg (some { firstName := some "Jo" })
      = [("firstName", FieldPred.eqV "Jo")] ∧
    getInputArg (some { lastName := some "Jo" })
      = [("lastName", FieldPred.eqV "Jo")] ∧
    getInputArg (some { email := some "Jo" })
      = [("email", FieldPred.eqV "Jo")] ∧
    getInputArg (some { appLanguageCode := some "Jo" })
      = [("appLanguageCode", FieldPred.eqV "Jo")] :=
  C4_eq_nonempty "Jo" (by decide)

/-- Claim C5: with no filter at all, and with a filter specification none of
whose fields is set, the query object passed to the store is exactly the
organization-membership base predicate for the given orgId. -/
theorem C5_empty_filter_base (orgId : String) (w : UserWhereInput)
    (h1 : w.id = none)
    (h2 : w.id_not = none)
    (h3 : w.id_in = none)
    (h4 : w.id_not_in = none)
    (h5 : w.firstName = none)
    (h6 : w.firstName_not = none)
    (h7 : w.firstName_in = none)
    (h8 : w.firstName_not_in = none)
    (h9 : w.firstName_contains = none)
    (h10 : w.firstName_starts_with = none)
    (h11 : w.lastName = none)
    (h12 : w.lastName_not = none)
    (h13 : w.lastName_in = none)
    (h14 : w.lastName_not_in = none)
    (h15 : w.lastName_contains = none)
    (h16 : w.lastName_starts_with = none)
    (h17 : w.email = none)
    (h18 : w.email_not = none)
    (h19 : w.email_in = none)
    (h20 : w.email_not_in = none)
    (h21 : w.email_contains = none)
    (h22 : w.email_starts_with = none)
    (h23 : w.appLanguageCode = none)
    (h24 : w.appLanguageCode_not = none)
    (h25 : w.appLanguageCode_in = none)
    (h26 : w.appLanguageCode_not_in = none)
    (h27 : w.appLanguageCode_contains = none)
    (h28 : w.appLanguageCode_starts_with = none)
    (h29 : w.admin_for = none)
    (h30 : w.event_title_contains = none) :
    buildQuery orgId none
      = [("joinedOrganizations", FieldPred.idEq orgId)] ∧
    buildQuery orgId (some w)
      = [("joinedOrganizations", FieldPred.idEq orgId)] := by
  refine ⟨rfl, ?_⟩
  simp [buildQuery, getInputArg, strField, listField, *]

/-- Witness for C5: the theorem at orgId `"org1"` and the all-absent filter. -/
theorem C5_empty_filter_witness :
    buildQuery "org1" none
      = [("joinedOrganizations", FieldPred.idEq "org1")] ∧
    buildQuery "org1" (some {})
      = [("joinedOrganizations", FieldPred.idEq "org1")] :=
  C5_empty_filter_base "org1" {} rfl rfl rfl rfl rfl rfl rfl rfl rfl rfl rfl rfl rfl rfl rfl rfl rfl rfl rfl rfl rfl rfl rfl rfl rfl rfl rfl rfl rfl rfl

/-- Claim C6: an empty array is truthy in JavaScript, so `in` and `notIn`
with the empty set do add their predicates (rather than erroring or being
skipped), and under MongoDB set semantics `$in: []` matches no value while
`$nin: []` matches every value. -/
theorem C6_empty_sets (s : String) :
    getInputArg (some { id_in := some [], firstName_not_in := some [] })
      = [("_id", FieldPred.inL []), ("firstName", FieldPred.ninL [])] ∧
    evalFieldPred (FieldPred.inL []) s = false ∧
    evalFieldPred (FieldPred.ninL []) s = true := by
  refine ⟨by decide, rfl, rfl⟩

/-- Claim C7: whenever the resolver returns a result (paged or unpaged),
every member record in its edges has a null password, whatever password the
store's raw documents carried. -/
theorem C7_password_always_null (store : StoreFn) (args : Args)
    (apiRootUrl : String) (r : ConnectionResult)
    (h : (organizationsMemberConnection store args apiRootUrl).result
      = Except.ok r) :
    ∀ u ∈ r.edges, u.password = none := by
  intro u hu
  rw [run_ok_edges store args apiRootUrl r h] at hu
  obtain ⟨raw, _, rfl⟩ := List.mem_map.mp hu
  rfl

/-- Witness for C7: the theorem at the sample store and unpaged arguments,
whose raw document has password `some "secret"`. -/
theorem C7_password_witness :
    (reshapeUser "https://api.example.com" sampleRawUser).password = none :=
  C7_password_always_null sampleStore argsUnpaged "https://api.example.com"
    sampleResult rfl (reshapeUser "https://api.example.com" sampleRawUser)
    (by simp [sampleResult])

/-- Claim C8 is false for an empty-string image: `some ""` is non-null, yet
the truthiness guard `user.image ? ... : null` maps it to `null` instead of
`apiRootUrl ++ ""`. The run below returns the edge with `image = none`. -/
theorem C8_counterexample :
    emptyImageUser.image = some "" ∧
    (organizationsMemberConnection emptyImageStore argsUnpaged
      "https://api.example.com").result
      = Except.ok
        { pageInfo :=
            { hasNextPage := false
              hasPreviousPage := false
              totalPages := some 1
              nextPageNo := none
              prevPageNo := none
              currPageNo := some 1 }
          edges := [PublicUser.mk "u2" "Al" none none]
          aggregate := 1 } :=
  ⟨rfl, rfl⟩

/-- Claim C8 amended: every returned member is the reshape of the raw
document at the same position of the store's answer; its image is
`apiRootUrl ++ rawImage` when the raw image is a non-null, non-empty string,
and null when the raw image is null (or the empty string). -/
theorem C8_image_rewrite (store : StoreFn) (args : Args) (apiRootUrl : String)
    (r : ConnectionResult) (i : Nat) (u : PublicUser) (raw : RawUser)
    (h : (organizationsMemberConnection store args apiRootUrl).result
      = Except.ok r)
    (hu : r.edges[i]? = some u)
    (hraw : ((store (buildQuery args.orgId args.whereInput)
      (storeOptions (if truthyJSInt args.first then pagedOptions args
        else unpagedOptions args))).docs)[i]? = some raw) :
    (raw.image = none → u.image = none) ∧
    (raw.image = some "" → u.image = none) ∧
    (∀ img, raw.image = some img → img ≠ "" →
      u.image = some (apiRootUrl ++ img)) := by
  rw [run_ok_edges store args apiRootUrl r h] at hu
  rw [List.getElem?_map, hraw] at hu
  have hu2 : reshapeUser apiRootUrl raw = u := by simpa using hu
  subst hu2
  refine ⟨?_, ?_, ?_⟩
  · intro hn; simp [reshapeUser, hn]
  · intro hn; simp [reshapeUser, hn]
  · intro img hn hne; simp [reshapeUser, hn, hne]

/-- Witness for C8: the amended theorem at the sample store, whose only
document has image `some "/u1.png"`, position 0, with api root url
`https://api.example.com`. -/
theorem C8_image_rewrite_witness :
    (reshapeUser "https://api.example.com" sampleRawUser).image
      = some ("https://api.example.com" ++ "/u1.png") :=
  (C8_image_rewrite sampleStore argsUnpaged "https://api.example.com"
      sampleResult 0 (reshapeUser "https://api.example.com" sampleRawUser)
      sampleRawUser rfl (by simp [sampleResult]) rfl).2.2
    "/u1.png" rfl (by decide)

/-- Claim C9: the predicate builder is a pure function of `(orgId, filter)`;
two calls on equal inputs produce structurally identical query objects. The
source builds the object by reassigning a local accumulator in fixed program
order, with no global state and no map iteration, which the embedding
preserves as a pure function. -/
theorem C9_builder_deterministic (o1 o2 : String)
    (w1 w2 : Option UserWhereInput) (ho : o1 = o2) (hw : w1 = w2) :
    buildQuery o1 w1 = buildQuery o2 w2 := by
  rw [ho, hw]

/-- Witness for C9: the theorem at a concrete organization and filter. -/
theorem C9_builder_deterministic_witness :
    buildQuery "org1" (some { firstName_contains := some "jo" })
      = buildQuery "org1" (some { firstName_contains := some "jo" }) :=
  C9_builder_deterministic "org1" "org1"
    (some { firstName_contains := some "jo" })
    (some { firstName_contains := some "jo" }) rfl rfl

lemma runAfterValidation_no_pagination (store : StoreFn) (args : Args)
    (apiRootUrl : String) (popts : PaginateOptions)
    (hp : popts.pagination = false) :
    runAfterValidation store args apiRootUrl popts =
      { storeCalls := 1
        result :=
          let m := store (buildQuery args.orgId args.whereInput)
            (storeOptions popts)
          Except.ok
            { pageInfo :=
                { hasNextPage := m.hasNextPage
                  hasPreviousPage := m.hasPrevPage
                  totalPages := m.totalPages
                  nextPageNo := m.nextPage
                  prevPageNo := m.prevPage
                  currPageNo := m.page }
              edges := m.docs.map (reshapeUser apiRootUrl)
              aggregate := m.totalDocs } } := by
  unfold runAfterValidation
  rw [if_neg]
  simp [hp]

/-- Claim C10: `args.first = 0` is falsy in JavaScript, so the resolver
takes the unpaged branch even when `skip` is absent: no error is thrown, the
store is called once with `pagination: false`, and the edges are the reshape
of every document the store returns. -/
theorem C10_first_zero_unpaged (store : StoreFn) (args : Args)
    (apiRootUrl : String) (h : args.first = JSVal.val 0) :
    let m := store (buildQuery args.orgId args.whereInput)
      (storeOptions (unpagedOptions args))
    (organizationsMemberConnection store args apiRootUrl).storeCalls = 1 ∧
    (organizationsMemberConnection store args apiRootUrl).result
      = Except.ok
        { pageInfo :=
            { hasNextPage := m.hasNextPage
              hasPreviousPage := m.hasPrevPage
              totalPages := m.totalPages
              nextPageNo := m.nextPage
              prevPageNo := m.prevPage
              currPageNo := m.page }
          edges := m.docs.map (reshapeUser apiRootUrl)
          aggregate := m.totalDocs } := by
  intro m
  have hfalse : truthyJSInt args.first = false := by rw [h]; rfl
  have hrun : organizationsMemberConnection store args apiRootUrl
      = runAfterValidation store args apiRootUrl (unpagedOptions args) := by
    unfold organizationsMemberConnection
    rw [hfalse]
    rfl
  rw [hrun, runAfterValidation_no_pagination store args apiRootUrl
    (unpagedOptions args) rfl]
  exact ⟨rfl, rfl⟩

/-- Witness for C10: the theorem at the sample store with `first = 0` and
`skip` absent; the run succeeds with the sample result. -/
theorem C10_first_zero_witness :
    (organizationsMemberConnection sampleStore argsFirstZero
      "https://api.example.com").storeCalls = 1 ∧
    (organizationsMemberConnection sampleStore argsFirstZero
      "https://api.example.com").result = Except.ok sampleResult :=
  C10_first_zero_unpaged sampleStore argsFirstZero "https://api.example.com"
    rfl
